import Mathlib

/-!
Verification development for the Northpower Daily Scheduler POC (app.py).
The definitions below are a shallow embedding of the POC's logic: the
schedule-id rule, the save handler, the flatten-for-table projection, and
the JSON import/export handlers.  The session store
`st.session_state.schedules` is a Python dict keyed by schedule id; it is
modelled as an association list with Python dict semantics (assignment
replaces in place, `update` merges key by key).

Two defects of app.py matter to the embedding.  First, the module does not
even parse: line 124's `with col1:` is followed by a line at the same
indentation (an `IndentationError` at line 125).  Second, granting the
parse, the save handler's payload literal reads the names `customer` and
`work_type` (lines 229-230), which are assigned nowhere in the module (the
form defines the combined `customer_work_type` at line 128, which nothing
reads), so every save with a non-empty work-order number raises `NameError`
before the store assignment at line 248.  The save handler is therefore
embedded as the crash it is: both of its branches leave the store
untouched, and no payload value ever exists.
-/

set_option autoImplicit false

namespace Scheduler

/-- Calendar date (year, month, day), modelling Python `datetime.date`. -/
structure Date where
  year : Nat
  month : Nat
  day : Nat
  deriving DecidableEq

/-- Zero-pad a natural number to two digits, as `strftime` does for `%m`/`%d`. -/
def pad2 (n : Nat) : String := if n < 10 then "0" ++ toString n else toString n

/-- Zero-pad a natural number to four digits, as `%Y` renders the year. -/
def pad4 (n : Nat) : String :=
  if n < 10 then "000" ++ toString n
  else if n < 100 then "00" ++ toString n
  else if n < 1000 then "0" ++ toString n
  else toString n

/-- Python `the_date.strftime("%Y%m%d")`: the eight-digit date string. -/
def yyyymmdd (d : Date) : String := pad4 d.year ++ pad2 d.month ++ pad2 d.day

/-- Python `the_date.isoformat()`: the `YYYY-MM-DD` string. -/
def isoformat (d : Date) : String := pad4 d.year ++ "-" ++ pad2 d.month ++ "-" ++ pad2 d.day

/-- app.py lines 44-45: `schedule_id_for` returns
`f"{(work_order or 'WO')}-{the_date.strftime('%Y%m%d')}"`.  The empty string
is the only falsy `str`, so `work_order or 'WO'` evaluates to `"WO"` exactly
when `work_order` is empty. -/
def schedule_id_for (work_order : String) (the_date : Date) : String :=
  (if work_order = "" then "WO" else work_order) ++ "-" ++ yyyymmdd the_date

/-- One stored resource entry, as the save handler composes it at app.py
lines 242-247 (all four keys always present, `BOOKED_HOURS` a float). -/
structure Resource where
  EMPLOYEE_ID : String
  EMPLOYEE_NAME : String
  ROLE_CODE : String
  BOOKED_HOURS : ℚ
  deriving DecidableEq

/-- The schedule payload dict composed by the save handler at app.py
lines 223-239.  Every key the handler writes is a field here. -/
structure Record where
  schedule_id : String
  schedule_date : String
  business_unit : String
  work_order_number : String
  job_description : String
  customer : String
  work_type : String
  project_manager : String
  task_information : String
  project_status : String
  resources_booked_desc : String
  hours_per_resource : Option ℚ
  status : String
  notes : String
  resources : List Resource
  deriving DecidableEq

/-- One row of the editable resource table (`st.data_editor`, app.py line
188).  The resource loop at lines 241-247 would read each cell with
`r.get(key, default)`, so a cell may be absent; each field is therefore
optional.  (That loop is dead code: the payload literal raises `NameError`
at line 229 before it runs.) -/
structure EditedRow where
  EMPLOYEE_ID : Option String
  EMPLOYEE_NAME : Option String
  ROLE_CODE : Option String
  BOOKED_HOURS : Option ℚ
  deriving DecidableEq

/-- The widget values in scope at the save handler (app.py lines 217-248):
the sidebar's date and business unit (lines 95-96) and the form's fields
(lines 125-157), with `edited` the resource table from `st.data_editor`
(line 188).  The form defines the combined `customer_work_type` input
(line 128); no variables named `customer` or `work_type` exist anywhere in
the module, although the payload literal reads those names at lines
229-230. -/
structure FormInput where
  work_order_number : String
  selected_date : Date
  selected_bu : String
  customer_work_type : String
  project_manager : String
  job_description : String
  task_information : String
  project_status : String
  resources_booked_desc : String
  hours_per_resource : ℚ
  schedule_status : String
  notes : String
  edited : List EditedRow
  deriving DecidableEq

/-- Lookup in a Python dict modelled as an association list: the first
binding of the key (a Python dict holds each key once). -/
def dictGet {α : Type} (s : List (String × α)) (k : String) : Option α :=
  (s.find? fun p => p.1 == k).map (·.2)

/-- Python dict assignment `d[k] = v`: replace the binding in place when the
key is present (keeping its slot — a dict holds each key at most once, so
replacing the first binding is replacing the binding), otherwise append a
new binding at the end. -/
def dictSet {α : Type} : List (String × α) → String → α → List (String × α)
  | [], k, v => [(k, v)]
  | p :: rest, k, v => if p.1 == k then (k, v) :: rest else p :: dictSet rest k v

/-- Python `d.update(m)`: assign every binding of `m` into `d`, in order. -/
def dictUpdate {α : Type} (s m : List (String × α)) : List (String × α) :=
  m.foldl (fun acc p => dictSet acc p.1 p.2) s

/-- The session store `st.session_state.schedules`. -/
abbrev Store := List (String × Record)

/-- How a run of the save handler ends.  It never ends in a successful
store: see `saveHandler`. -/
inductive SaveResult where
  /-- Line 219: `st.error("Work Order Number is required.")`. -/
  | workOrderError
  /-- Line 229: evaluating the payload literal reads the undefined name
  `customer` (then `work_type` at line 230), raising `NameError`. -/
  | nameErrorCrash
  deriving DecidableEq

/-- app.py lines 217-248: the save handler behind both save buttons.  An
empty (falsy) work-order number is rejected with `st.error` at line 219.
Otherwise the handler computes the id (line 221) and starts evaluating the
payload dict literal (lines 223-239) — whose entry `"customer": customer`
at line 229 reads a name that is assigned nowhere in the module, raising
`NameError` before the resource loop (lines 240-247) and the store
assignment (line 248) are reached.  Both branches therefore end without
touching the store, and no payload value ever exists; independently, the
`IndentationError` at line 125 keeps the module from loading at all. -/
def saveHandler (store : Store) (inp : FormInput) : Store × SaveResult :=
  if inp.work_order_number = "" then (store, SaveResult.workOrderError)
  else (store, SaveResult.nameErrorCrash)

/-- One row of the readback table built by `flatten_for_table`. -/
structure Row where
  date : String
  bu : String
  workOrder : String
  jobDescription : String
  customer : String
  workType : String
  projectManager : String
  task : String
  projectStatus : String
  employee : String
  role : String
  bookedHours : Option ℚ
  deriving DecidableEq

/-- app.py lines 56-70: the placeholder row emitted when a matching record
has no resources (em-dash markers, hours taken from the record). -/
def placeholderRow (rec : Record) : Row :=
  { date := rec.schedule_date
    bu := rec.business_unit
    workOrder := rec.work_order_number
    jobDescription := rec.job_description
    customer := rec.customer
    workType := rec.work_type
    projectManager := rec.project_manager
    task := rec.task_information
    projectStatus := rec.project_status
    employee := "—"
    role := "—"
    bookedHours := rec.hours_per_resource }

/-- app.py lines 72-87: one row per resource of a matching record. -/
def resourceRow (rec : Record) (r : Resource) : Row :=
  { date := rec.schedule_date
    bu := rec.business_unit
    workOrder := rec.work_order_number
    jobDescription := rec.job_description
    customer := rec.customer
    workType := rec.work_type
    projectManager := rec.project_manager
    task := rec.task_information
    projectStatus := rec.project_status
    employee := r.EMPLOYEE_NAME
    role := r.ROLE_CODE
    bookedHours := some r.BOOKED_HOURS }

/-- Loop body of `flatten_for_table` (app.py lines 50-87): skip the record
unless its date and business unit match (the two `continue`s), then emit the
placeholder row or one row per resource. -/
def rowsForEntry (target_date : Date) (bu : String) (p : String × Record) : List Row :=
  if p.2.schedule_date ≠ isoformat target_date then []
  else if p.2.business_unit ≠ bu then []
  else if p.2.resources = [] then [placeholderRow p.2]
  else p.2.resources.map (resourceRow p.2)

/-- app.py lines 47-88: build the readback table by iterating the store in
order and appending each record's rows. -/
def flatten_for_table (schedules : Store) (target_date : Date) (bu : String) : List Row :=
  match schedules with
  | [] => []
  | p :: rest => rowsForEntry target_date bu p ++ flatten_for_table rest target_date bu

/-- A JSON value sitting under a key of the top-level object of an imported
document: either itself an object (modelled as an association list of
records) or anything else.  The handler inspects nothing deeper. -/
inductive DocVal (α : Type) where
  | dictVal (m : List (String × α))
  | otherVal
  deriving DecidableEq

/-- A parsed JSON document handed to the importer: either a top-level object
with its bindings, or any non-object value. -/
inductive ImportDoc (α : Type) where
  | dictDoc (entries : List (String × DocVal α))
  | nonDict
  deriving DecidableEq

/-- app.py line 276: `isinstance(data, dict) and isinstance(data.get("schedules"), dict)`
— the bindings under `"schedules"` when the check passes, `none` otherwise. -/
def docSchedules {α : Type} : ImportDoc α → Option (List (String × α))
  | ImportDoc.nonDict => none
  | ImportDoc.dictDoc es =>
    match dictGet es "schedules" with
    | some (DocVal.dictVal m) => some m
    | _ => none

/-- app.py lines 275-280: the JSON importer.  On a well-formed document the
store is merged with `st.session_state.schedules.update(data["schedules"])`
and a success flag is returned; otherwise `st.error` is shown (the `false`
flag) and the store is untouched. -/
def doImport {α : Type} (store : List (String × α)) (doc : ImportDoc α) :
    List (String × α) × Bool :=
  match docSchedules doc with
  | some m => (dictUpdate store m, true)
  | none => (store, false)

/-- app.py line 269: the export button serializes
`json.dumps(obj)` where `obj` has the single key `"schedules"` bound to the
store; modelled as the document the importer would parse back. -/
def exportDoc {α : Type} (store : List (String × α)) : ImportDoc α :=
  ImportDoc.dictDoc [("schedules", DocVal.dictVal store)]

/-- Store states reachable from the empty session store using only the save
handler (any sequence of submissions; each is either rejected or crashes,
leaving the store as it was). -/
inductive ReachableBySave : Store → Prop where
  | empty : ReachableBySave []
  | step (s : Store) (inp : FormInput) : ReachableBySave s → ReachableBySave (saveHandler s inp).1

/-- The date used by the spec's concrete scenario. -/
def sampleDate : Date := ⟨2024, 3, 15⟩

/-- A resource-table row whose booked-hours cell is absent. -/
def rowFallback : EditedRow :=
  { EMPLOYEE_ID := some "E-CHRISB", EMPLOYEE_NAME := some "Chris B",
    ROLE_CODE := some "LM", BOOKED_HOURS := none }

/-- A fully populated submission matching the form's default values. -/
def inp0 : FormInput :=
  { work_order_number := "TC4216033"
    selected_date := sampleDate
    selected_bu := "DWW"
    customer_work_type := "VEC - Capital - Non Contestable"
    project_manager := "John Donald"
    job_description := "Residential Subdivision work. Milldale 7A."
    task_information := "Cabling/Installing Tuds/Jointing"
    project_status := "De-energised"
    resources_booked_desc := "8 hr/resource"
    hours_per_resource := 8
    schedule_status := "SCHEDULED"
    notes := ""
    edited := [{ EMPLOYEE_ID := some "E-SAMG", EMPLOYEE_NAME := some "Sam G",
                 ROLE_CODE := some "FLM", BOOKED_HOURS := some 8 },
               rowFallback] }

/-- A second submission for the same work order and date as `inp0`. -/
def inp0v2 : FormInput :=
  { inp0 with notes := "updated after lunch", project_status := "Energised" }

/-- An otherwise-valid submission whose job description is empty. -/
def inpNoJob : FormInput :=
  { inp0 with job_description := "" }

/-- A submission with an empty (falsy) work-order number. -/
def inpEmptyWO : FormInput :=
  { inp0 with work_order_number := "" }

/-- A concrete record in the canonical stored shape (such records can reach
the store through the import path), with two resources. -/
def recSample : Record :=
  { schedule_id := "TC4216033-20240315"
    schedule_date := "2024-03-15"
    business_unit := "DWW"
    work_order_number := "TC4216033"
    job_description := "Residential Subdivision work. Milldale 7A."
    customer := "VEC"
    work_type := "Capital - Non Contestable"
    project_manager := "John Donald"
    task_information := "Cabling/Installing Tuds/Jointing"
    project_status := "De-energised"
    resources_booked_desc := "8 hr/resource"
    hours_per_resource := some 8
    status := "SCHEDULED"
    notes := ""
    resources := [{ EMPLOYEE_ID := "E-SAMG", EMPLOYEE_NAME := "Sam G",
                    ROLE_CODE := "FLM", BOOKED_HOURS := 8 },
                  { EMPLOYEE_ID := "E-CHRISB", EMPLOYEE_NAME := "Chris B",
                    ROLE_CODE := "LM", BOOKED_HOURS := 8 }] }

/-- A record with no resources, on the same date, under work order `WO77`. -/
def recWO77 : Record :=
  { recSample with schedule_id := "WO77-20240315", work_order_number := "WO77",
                   resources := [] }

/-- A record on the following date, under work order `WO88`. -/
def recWO88 : Record :=
  { recSample with schedule_id := "WO88-20240316", work_order_number := "WO88",
                   schedule_date := "2024-03-16" }

/-- A concrete store for witnesses: a matching record with two resources,
a matching record with no resources, and a record on another date. -/
def storeB : Store :=
  [("TC4216033-20240315", recSample),
   ("WO77-20240315", recWO77),
   ("WO88-20240316", recWO88)]

/-- The spec's malformed import document, `\x7b"notSchedules": \x7b\x7d\x7d`. -/
def docBad : ImportDoc Record :=
  ImportDoc.dictDoc [("notSchedules", DocVal.dictVal [])]

/-- A well-formed import document whose envelope key disagrees with the
record's own `schedule_id` field. -/
def docMismatch : ImportDoc Record :=
  ImportDoc.dictDoc [("schedules", DocVal.dictVal [("K1", recSample)])]

/-! Helper lemmas about the Python-dict model. -/

theorem dictGet_cons {α : Type} (a : String) (b : α) (rest : List (String × α)) (k : String) :
    dictGet ((a, b) :: rest) k = if a == k then some b else dictGet rest k := by
  cases h : a == k <;> simp [dictGet, List.find?_cons, h]

theorem dictGet_dictSet_self {α : Type} (s : List (String × α)) (k : String) (v : α) :
    dictGet (dictSet s k v) k = some v := by
  induction s with
  | nil => simp [dictSet, dictGet_cons]
  | cons q rest ih =>
    obtain ⟨a, b⟩ := q
    by_cases ha : a = k
    · subst ha
      simp [dictSet, dictGet_cons]
    · have hb : (a == k) = false := beq_false_of_ne ha
      simp only [dictSet, hb, Bool.false_eq_true, if_false]
      rw [dictGet_cons]
      simp [hb, ih]

theorem dictGet_dictSet_ne {α : Type} (s : List (String × α)) (k k' : String) (v : α)
    (hne : k' ≠ k) :
    dictGet (dictSet s k v) k' = dictGet s k' := by
  induction s with
  | nil =>
    have hk : (k == k') = false := beq_false_of_ne (Ne.symm hne)
    simp [dictSet, dictGet_cons, hk, dictGet]
  | cons q rest ih =>
    obtain ⟨a, b⟩ := q
    by_cases ha : a = k
    · subst ha
      have hk : (a == k') = false := beq_false_of_ne (Ne.symm hne)
      simp [dictSet, dictGet_cons, hk]
    · have hb : (a == k) = false := beq_false_of_ne ha
      simp only [dictSet, hb, Bool.false_eq_true, if_false]
      rw [dictGet_cons, dictGet_cons, ih]

theorem dictSet_of_not_mem {α : Type} {s : List (String × α)} {k : String} {v : α}
    (h : k ∉ s.map Prod.fst) :
    dictSet s k v = s ++ [(k, v)] := by
  induction s with
  | nil => rfl
  | cons q rest ih =>
    rw [List.map_cons] at h
    have h1 : q.1 ≠ k := fun hq => h (hq ▸ List.mem_cons_self _ _)
    have h2 : k ∉ rest.map Prod.fst := fun hm => h (List.mem_cons_of_mem _ hm)
    have hb : (q.1 == k) = false := beq_false_of_ne h1
    simp only [dictSet, hb, Bool.false_eq_true, if_false, List.cons_append]
    rw [ih h2]

theorem dictUpdate_cons {α : Type} (s : List (String × α)) (k : String) (v : α)
    (m : List (String × α)) :
    dictUpdate s ((k, v) :: m) = dictUpdate (dictSet s k v) m := rfl

theorem dictUpdate_append_of_nodup {α : Type} {m : List (String × α)} :
    ∀ {acc : List (String × α)}, (((acc ++ m).map Prod.fst).Nodup) →
      dictUpdate acc m = acc ++ m := by
  induction m with
  | nil =>
    intro acc _
    simp [dictUpdate]
  | cons q rest ih =>
    intro acc h
    obtain ⟨k, v⟩ := q
    rw [dictUpdate_cons]
    have hk : k ∉ acc.map Prod.fst := by
      intro hm
      rw [List.map_append, List.nodup_append] at h
      exact h.2.2 hm (by simp)
    rw [dictSet_of_not_mem hk]
    have hassoc : (acc ++ [(k, v)]) ++ rest = acc ++ (k, v) :: rest := by
      simp
    rw [ih (by rw [hassoc]; exact h), hassoc]

theorem dictGet_dictUpdate_not_mem {α : Type} {m : List (String × α)} {k : String}
    (h : k ∉ m.map Prod.fst) :
    ∀ s : List (String × α), dictGet (dictUpdate s m) k = dictGet s k := by
  induction m with
  | nil =>
    intro s
    rfl
  | cons q rest ih =>
    intro s
    obtain ⟨k', v'⟩ := q
    rw [List.map_cons] at h
    have h1 : k' ≠ k := fun hq => h (hq ▸ List.mem_cons_self _ _)
    have h2 : k ∉ rest.map Prod.fst := fun hm => h (List.mem_cons_of_mem _ hm)
    rw [dictUpdate_cons, ih h2, dictGet_dictSet_ne _ _ _ _ (Ne.symm h1)]

theorem dictGet_dictUpdate_mem {α : Type} {m : List (String × α)} {k : String} {v : α}
    (hnodup : (m.map Prod.fst).Nodup) (hmem : (k, v) ∈ m) :
    ∀ s : List (String × α), dictGet (dictUpdate s m) k = some v := by
  induction m with
  | nil => cases hmem
  | cons q rest ih =>
    intro s
    obtain ⟨k', v'⟩ := q
    rw [List.map_cons, List.nodup_cons] at hnodup
    rw [List.mem_cons] at hmem
    rcases hmem with h | h
    · obtain ⟨rfl, rfl⟩ := Prod.mk.injEq .. ▸ h
      rw [dictUpdate_cons, dictGet_dictUpdate_not_mem hnodup.1, dictGet_dictSet_self]
    · rw [dictUpdate_cons]
      exact ih hnodup.2 h _

/-! Claim theorems. -/

/-- C1: for every work order number (a non-empty string, per the data model)
and every calendar date, `schedule_id_for` returns the concatenation of the
work order, the literal separator `"-"`, and the date formatted as an
eight-digit `YYYYMMDD` string; in particular the id for `TC4216033` on
2024-03-15 is `TC4216033-20240315`. -/
theorem deriveId_concat (w : String) (d : Date) (hw : w ≠ "") :
    schedule_id_for w d = w ++ "-" ++ yyyymmdd d ∧
    schedule_id_for "TC4216033" ⟨2024, 3, 15⟩ = "TC4216033-20240315" := by
  constructor
  · unfold schedule_id_for
    rw [if_neg hw]
  · rfl

/-- Witness for C1 at the spec's concrete scenario. -/
theorem deriveId_concat_witness :
    schedule_id_for "TC4216033" sampleDate = "TC4216033" ++ "-" ++ yyyymmdd sampleDate ∧
    schedule_id_for "TC4216033" ⟨2024, 3, 15⟩ = "TC4216033-20240315" :=
  deriveId_concat "TC4216033" sampleDate (by decide)

/-- C9: `schedule_id_for` applied to an empty (falsy) work order number
yields `"WO-"` followed by the date, not `"-"` followed by the date, so any
two submissions with falsy work order numbers on the same date collide at
the single id `WO-YYYYMMDD`. -/
theorem empty_workOrder_id (w1 w2 : String) (d : Date) (h1 : w1 = "") (h2 : w2 = "") :
    schedule_id_for w1 d = "WO-" ++ yyyymmdd d ∧
    schedule_id_for w1 d ≠ "-" ++ yyyymmdd d ∧
    schedule_id_for w1 d = schedule_id_for w2 d := by
  subst h1
  subst h2
  refine ⟨rfl, fun heq => ?_, rfl⟩
  have hlen := congrArg String.length heq
  have h1 : (schedule_id_for "" d).length = 3 + (yyyymmdd d).length := by
    show (("WO" ++ "-") ++ yyyymmdd d).length = 3 + (yyyymmdd d).length
    simp [String.length_append]
    rfl
  have h2 : ("-" ++ yyyymmdd d).length = 1 + (yyyymmdd d).length := by
    simp [String.length_append]
    rfl
  rw [h1, h2] at hlen
  omega

/-- Witness for C9 at the empty work order and the sample date. -/
theorem empty_workOrder_id_witness :
    schedule_id_for "" sampleDate = "WO-" ++ yyyymmdd sampleDate ∧
    schedule_id_for "" sampleDate ≠ "-" ++ yyyymmdd sampleDate ∧
    schedule_id_for "" sampleDate = schedule_id_for "" sampleDate :=
  empty_workOrder_id "" "" sampleDate rfl rfl

/-- C2 counterexample: removing the job description from an otherwise-valid
candidate does not make validation fail with that field's name — there is no
missing-field list in the code at all.  The handler's outcome on the
job-description-less candidate is the same `NameError` crash as on the
fully-populated one (not the work-order validation error, the only
validation outcome the code has), so no field other than the work-order
number is ever checked. -/
theorem required_fields_not_checked :
    saveHandler [] inpNoJob = ([], SaveResult.nameErrorCrash) ∧
    saveHandler [] inp0 = ([], SaveResult.nameErrorCrash) ∧
    SaveResult.nameErrorCrash ≠ SaveResult.workOrderError := by
  exact ⟨by decide, by decide, by decide⟩

/-- C2 (amended): the save path checks the presence of exactly one field,
the work-order number: an empty work-order number is rejected with an error
naming that field, and every submission with a non-empty work-order number
crashes with `NameError` while composing the payload (undefined
`customer`/`work_type`, lines 229-230).  Either way the store is returned
unchanged, so the save path admits no record at all — in particular the
store never gains a record with a required field empty through it. -/
theorem validation_only_work_order (store : Store) (inp : FormInput) :
    (inp.work_order_number = "" →
      saveHandler store inp = (store, SaveResult.workOrderError)) ∧
    (inp.work_order_number ≠ "" →
      saveHandler store inp = (store, SaveResult.nameErrorCrash)) ∧
    (saveHandler store inp).1 = store := by
  refine ⟨fun h => ?_, fun h => ?_, ?_⟩
  · unfold saveHandler
    rw [if_pos h]
  · unfold saveHandler
    rw [if_neg h]
  · unfold saveHandler
    by_cases h : inp.work_order_number = ""
    · rw [if_pos h]
    · rw [if_neg h]

/-- Witness for the amended C2: the empty-work-order submission is rejected
with the work-order error and the fully-populated one crashes; neither
touches the store. -/
theorem validation_only_work_order_witness :
    saveHandler [] inpEmptyWO = ([], SaveResult.workOrderError) ∧
    saveHandler [] inp0 = ([], SaveResult.nameErrorCrash) :=
  ⟨(validation_only_work_order [] inpEmptyWO).1 (by decide),
   (validation_only_work_order [] inp0).2.1 (by decide)⟩

/-- C3 (code bug): two submissions sharing a work order and date never
produce a store entry at all.  Each save with a non-empty work-order number
raises `NameError` at line 229 before the line-248 assignment (and the
module itself fails to parse at line 125), so after both submissions the
store is still empty and the derived id is unbound — where the claim, and
the plain intent of `st.session_state.schedules[sid] = payload`, expect one
entry holding the second payload. -/
theorem upsert_crash_store_empty :
    (saveHandler (saveHandler [] inp0).1 inp0v2).1 = ([] : Store) ∧
    (saveHandler (saveHandler [] inp0).1 inp0v2).2 = SaveResult.nameErrorCrash ∧
    dictGet (saveHandler (saveHandler [] inp0).1 inp0v2).1
        (schedule_id_for inp0v2.work_order_number inp0v2.selected_date) = none := by
  exact ⟨by decide, by decide, by decide⟩

/-- C5: when the top-level value of an imported document is not an object
containing a `schedules` object (the `docSchedules` check fails), the
importer reports a format error (the `false` flag behind `st.error`) and
returns the store exactly unchanged. -/
theorem formatError_store_unchanged (store : Store) (doc : ImportDoc Record)
    (h : docSchedules doc = none) :
    doImport store doc = (store, false) := by
  unfold doImport
  rw [h]

/-- Witness for C5 at the spec's concrete malformed document. -/
theorem formatError_store_unchanged_witness :
    docSchedules docBad = none ∧ doImport storeB docBad = (storeB, false) :=
  ⟨rfl, formatError_store_unchanged storeB docBad rfl⟩

/-- C6 (round trip): exporting a store to the `schedules` envelope and
importing that document into an empty store succeeds and reproduces exactly
the original bindings. -/
theorem roundTrip_export_merge (store : Store) (h : (store.map Prod.fst).Nodup) :
    doImport ([] : Store) (exportDoc store) = (store, true) := by
  have hs : docSchedules (exportDoc store) = some store := rfl
  unfold doImport
  rw [hs]
  have hupd : dictUpdate ([] : Store) store = store := by
    have := @dictUpdate_append_of_nodup Record store ([] : Store) (by simpa using h)
    simpa using this
  show (dictUpdate ([] : Store) store, true) = (store, true)
  rw [hupd]

/-- Witness for C6 on a three-record store. -/
theorem roundTrip_export_merge_witness :
    doImport ([] : Store) (exportDoc storeB) = (storeB, true) :=
  roundTrip_export_merge storeB (by decide)

/-- C7: a well-formed import merges the bindings under `schedules` into the
store by key: the importer runs `update`, every pre-existing id absent from
the document keeps its old value, every id in the document ends up bound to
the document's record, and importing an empty `schedules` object leaves any
store unchanged. -/
theorem merge_upsert_frame (store : Store) (doc : ImportDoc Record)
    (m : List (String × Record)) (hdoc : docSchedules doc = some m)
    (hnodup : (m.map Prod.fst).Nodup) :
    doImport store doc = (dictUpdate store m, true) ∧
    (∀ k, k ∉ m.map Prod.fst → dictGet (dictUpdate store m) k = dictGet store k) ∧
    (∀ k v, (k, v) ∈ m → dictGet (dictUpdate store m) k = some v) ∧
    doImport store (ImportDoc.dictDoc [("schedules", DocVal.dictVal [])]) = (store, true) := by
  refine ⟨?_, ?_, ?_, rfl⟩
  · unfold doImport
    rw [hdoc]
  · intro k hk
    exact dictGet_dictUpdate_not_mem hk store
  · intro k v hm
    exact dictGet_dictUpdate_mem hnodup hm store

/-- Witness for C7: merging a one-record document into the sample store. -/
theorem merge_upsert_frame_witness :
    doImport storeB docMismatch = (dictUpdate storeB [("K1", recSample)], true) ∧
    dictGet (dictUpdate storeB [("K1", recSample)]) "WO77-20240315"
      = dictGet storeB "WO77-20240315" ∧
    dictGet (dictUpdate storeB [("K1", recSample)]) "K1" = some recSample ∧
    doImport storeB (ImportDoc.dictDoc [("schedules", DocVal.dictVal [])]) = (storeB, true) :=
  have h := merge_upsert_frame storeB docMismatch [("K1", recSample)] rfl (by decide)
  ⟨h.1, h.2.1 "WO77-20240315" (by decide), h.2.2.1 "K1" recSample (by decide), h.2.2.2⟩

/-- C8 (code bug): the booked-hours fallback loop (lines 240-247) is dead
code — evaluating the payload literal raises `NameError` at line 229 before
the loop runs — so the sample submission, which carries one resource row
with a specified booked-hours cell and one without, stores nothing: the
handler crashes, the store stays empty and no `BOOKED_HOURS` value is ever
recorded, where the claim expects each assignment stored with its specified
hours or the record's hours-per-resource. -/
theorem bookedHours_never_stored :
    inp0.edited = [{ EMPLOYEE_ID := some "E-SAMG", EMPLOYEE_NAME := some "Sam G",
                     ROLE_CODE := some "FLM", BOOKED_HOURS := some 8 }, rowFallback] ∧
    rowFallback.BOOKED_HOURS = none ∧
    saveHandler [] inp0 = ([], SaveResult.nameErrorCrash) ∧
    dictGet (saveHandler [] inp0).1 "TC4216033-20240315" = none := by
  exact ⟨by decide, by decide, by decide, by decide⟩

theorem rowsForEntry_mem {d : Date} {bu : String} {p : String × Record} {row : Row}
    (h : row ∈ rowsForEntry d bu p) :
    row.date = isoformat d ∧ row.bu = bu := by
  unfold rowsForEntry at h
  by_cases h1 : p.2.schedule_date ≠ isoformat d
  · rw [if_pos h1] at h
    cases h
  · rw [if_neg h1] at h
    push_neg at h1
    by_cases h2 : p.2.business_unit ≠ bu
    · rw [if_pos h2] at h
      cases h
    · rw [if_neg h2] at h
      push_neg at h2
      by_cases h3 : p.2.resources = []
      · rw [if_pos h3] at h
        rcases List.mem_singleton.mp h with rfl
        exact ⟨h1, h2⟩
      · rw [if_neg h3] at h
        obtain ⟨r, _, rfl⟩ := List.mem_map.mp h
        exact ⟨h1, h2⟩

theorem rowsForEntry_length (d : Date) (bu : String) (p : String × Record) :
    (rowsForEntry d bu p).length =
      if p.2.schedule_date = isoformat d ∧ p.2.business_unit = bu
      then max 1 p.2.resources.length else 0 := by
  unfold rowsForEntry
  by_cases h1 : p.2.schedule_date = isoformat d
  · by_cases h2 : p.2.business_unit = bu
    · have hcond : p.2.schedule_date = isoformat d ∧ p.2.business_unit = bu := ⟨h1, h2⟩
      rw [if_neg (not_not_intro h1), if_neg (not_not_intro h2), if_pos hcond]
      by_cases h3 : p.2.resources = []
      · rw [if_pos h3, h3]
        rfl
      · rw [if_neg h3, List.length_map]
        have hlen : 1 ≤ p.2.resources.length :=
          Nat.one_le_iff_ne_zero.mpr fun h0 => h3 (List.length_eq_zero.mp h0)
        rw [max_eq_right hlen]
    · have hnc : ¬(p.2.schedule_date = isoformat d ∧ p.2.business_unit = bu) :=
        fun hc => h2 hc.2
      rw [if_neg (not_not_intro h1), if_pos h2, if_neg hnc]
      rfl
  · have hnc : ¬(p.2.schedule_date = isoformat d ∧ p.2.business_unit = bu) :=
      fun hc => h1 hc.1
    rw [if_pos h1, if_neg hnc]
    rfl

/-- C4: every row of `flatten_for_table` carries the target date and the
requested business unit, and the table's row count is the sum, over the
store records matching that date and unit, of `max 1 (resource count)` —
one placeholder row for a matching record with no resources, otherwise one
row per resource. -/
theorem flatten_filter_and_count (s : Store) (d : Date) (bu : String) :
    (∀ row ∈ flatten_for_table s d bu, row.date = isoformat d ∧ row.bu = bu) ∧
    (flatten_for_table s d bu).length =
      ((s.filter fun p =>
          p.2.schedule_date == isoformat d && p.2.business_unit == bu).map
        fun p => max 1 p.2.resources.length).sum := by
  induction s with
  | nil => exact ⟨fun row h => absurd h (List.not_mem_nil row), rfl⟩
  | cons p rest ih =>
    constructor
    · intro row hrow
      rw [flatten_for_table] at hrow
      rcases List.mem_append.mp hrow with h | h
      · exact rowsForEntry_mem h
      · exact ih.1 row h
    · rw [flatten_for_table, List.length_append, rowsForEntry_length, List.filter_cons, ih.2]
      by_cases hm : p.2.schedule_date = isoformat d ∧ p.2.business_unit = bu
      · have hb : (p.2.schedule_date == isoformat d && p.2.business_unit == bu) = true := by
          simp [hm.1, hm.2]
        rw [if_pos hm, hb, if_pos rfl, List.map_cons, List.sum_cons]
      · have hb : (p.2.schedule_date == isoformat d && p.2.business_unit == bu) = false := by
          rcases not_and_or.mp hm with h | h <;> simp [h]
        rw [if_neg hm, hb]
        simp

/-- Witness for C4 on the three-record sample store: three rows for the
target day (two resources plus one placeholder), and the placeholder row
carries the target date and business unit. -/
theorem flatten_filter_and_count_witness :
    ((flatten_for_table storeB sampleDate "DWW").length =
      ((storeB.filter fun p =>
          p.2.schedule_date == isoformat sampleDate && p.2.business_unit == "DWW").map
        fun p => max 1 p.2.resources.length).sum) ∧
    ((placeholderRow recWO77).date = isoformat sampleDate ∧
      (placeholderRow recWO77).bu = "DWW") :=
  ⟨(flatten_filter_and_count storeB sampleDate "DWW").2,
   (flatten_filter_and_count storeB sampleDate "DWW").1 (placeholderRow recWO77) (by decide)⟩

/-- C10 (code bug): the save handler never admits an entry — both of its
branches return the store unchanged, the non-empty-work-order branch because
of the `NameError` raised before line 248 — so every store reachable through
saves alone is empty, and the claimed key-equals-`schedule_id` invariant
describes entries that never exist.  The import merge, which copies entries
under their envelope keys without inspecting the records, indeed does not
establish the invariant: a successful import leaves the store holding an
entry whose record `schedule_id` differs from its key. -/
theorem storeKey_invariant_vacuous :
    (∀ s : Store, ReachableBySave s → s = []) ∧
    ((doImport ([] : Store) docMismatch).2 = true ∧
      ∃ p ∈ (doImport ([] : Store) docMismatch).1, p.2.schedule_id ≠ p.1) := by
  constructor
  · intro s hreach
    induction hreach with
    | empty => rfl
    | step s' inp _ ih =>
      have hs : (saveHandler s' inp).1 = s' := by
        unfold saveHandler
        by_cases hw : inp.work_order_number = ""
        · rw [if_pos hw]
        · rw [if_neg hw]
      rw [hs]
      exact ih
  · exact ⟨rfl, ("K1", recSample), by decide, by decide⟩

/-- Witness for C10: the store reached by one submission of the
fully-populated candidate is still empty. -/
theorem storeKey_invariant_vacuous_witness :
    (saveHandler [] inp0).1 = ([] : Store) :=
  storeKey_invariant_vacuous.1 (saveHandler [] inp0).1
    (ReachableBySave.step [] inp0 ReachableBySave.empty)

end Scheduler
